import Mathlib

/-!
Shallow embedding of the LoRabot module (src/src/modules/LoRabotModule.cpp and
its header) for checking the natural-language specification against the code.

Modelling conventions:
* millisecond timestamps (the C code's uint32_t millis() values) are Nat;
  subtractions `now - t` are Nat truncated subtraction, which agrees with the
  C uint32 arithmetic whenever `t <= now` (the situation during a run between
  counter wraps);
* 8-bit and 16-bit counters are Nat reduced mod 256 / 65536 exactly where the
  C code's fixed-width types wrap;
* the fixed `friends[MAX_FRIENDS]` array together with `friendCount` is
  modelled by the list of its occupied prefix, plus the separate
  `friendCount` byte that `loadState` reads from preferences;
* external collaborators (node database, radio interface, clock, random
  source) are passed in as explicit arguments;
* display/logging side effects are dropped; every field of the module that
  feeds a classifier or the state machine is kept.
-/

/-- PetState is a uint8-backed C enum, so it is modelled as Nat with named
values (a persisted snapshot can hold any byte here, exactly as in the C). -/
abbrev PetState := Nat

abbrev AWAKE : PetState := 0
abbrev LOOKING_AROUND_RIGHT : PetState := 1
abbrev LOOKING_AROUND_LEFT : PetState := 2
abbrev HAPPY : PetState := 3
abbrev EXCITED : PetState := 4
abbrev SLEEPY1 : PetState := 5
abbrev SLEEPY2 : PetState := 6
abbrev GRATEFUL : PetState := 7
abbrev BLINK : PetState := 8
abbrev DEMOTIVATED : PetState := 9
abbrev SENDER : PetState := 10

/-- Text message direction classification (header enum TextMessageDirection). -/
inductive TextMessageDirection : Type where
  | MY_TEXT_TO_SOMEONE
  | TEXT_TO_ME_DIRECT
  | TEXT_BROADCAST_BY_ME
  | TEXT_BROADCAST_BY_OTHER
  | TEXT_RELAYED
deriving DecidableEq, Repr

open TextMessageDirection

/-- Node discovery classification (header enum NodeDiscoveryType). -/
inductive NodeDiscoveryType : Type where
  | NEW_NODE_DISCOVERED
  | NODE_COUNT_CHANGED
  | NODE_COUNT_UNCHANGED
  | FIRST_BOOT_DETECTION
  | SENDING_INTERFERENCE
deriving DecidableEq, Repr

open NodeDiscoveryType

/-- The fields of a meshtastic_MeshPacket that the module reads.  The C
field `from` is a Lean keyword, hence `fromNode`; `hop_start` / `hop_limit`
become `hopStart` / `hopLimit`.  The payload bytes only feed the display
popup text, which is not modelled. -/
structure MeshPacket : Type where
  fromNode : Nat
  toNode : Nat
  portnum : Nat
  hopStart : Nat
  hopLimit : Nat
deriving DecidableEq, Repr

/-- Friend tracking structure (header struct FriendNode).  `encounters` is a
uint8_t in the C, kept below 256 by the mod-256 update. -/
structure FriendNode : Type where
  nodeId : Nat
  encounters : Nat
  lastSeen : Nat
deriving DecidableEq, Repr

/-- The fields of a meshtastic_NodeInfoLite read by the discovery analysis. -/
structure NodeInfoLite : Type where
  num : Nat
  lastHeard : Nat
  hasUser : Bool
  longName : String
  shortName : String
deriving DecidableEq, Repr

/-- Result of analyzeTextMessageDirection (header struct TextMessageAnalysis). -/
structure TextMessageAnalysis : Type where
  direction : TextMessageDirection
  myNodeNum : Nat
  recipientNodeNum : Nat
  senderNodeNum : Nat
  shouldReact : Bool
  suggestedState : PetState
deriving DecidableEq, Repr

/-- Result of analyzeNodeDiscoveryDirection (header struct
NodeDiscoveryAnalysis); the `newestNode` pointer becomes an Option. -/
structure NodeDiscoveryAnalysis : Type where
  discoveryType : NodeDiscoveryType
  totalNodeCount : Nat
  previousNodeCount : Nat
  newestNode : Option NodeInfoLite
  nodeName : String
  shouldTriggerHappy : Bool
  shouldUpdateCount : Bool
deriving DecidableEq, Repr

def MAX_FRIENDS : Nat := 8

def meshtastic_PortNum_TEXT_MESSAGE_APP : Nat := 1

def meshtastic_PortNum_POSITION_APP : Nat := 3

/-- Meshtastic broadcast address; the code checks
`mp.to == NODENUM_BROADCAST || mp.to == 0xffffffff` and the constant is
0xffffffff in the host firmware. -/
def NODENUM_BROADCAST : Nat := 0xffffffff

/-- The mutable fields of LoRabotModule that feed the state machine and the
classifiers, together with the two stepState scratch fields the modelled
steps use (nodeCheckCounter, lastTxGoodCheck). -/
structure EngineState : Type where
  currentState : PetState
  previousState : PetState
  lastActivityTime : Nat
  lastStateChange : Nat
  networkEventCount : Nat
  currentNodeCount : Nat
  friends : List FriendNode
  friendCount : Nat
  lastDiscoveredNode : Nat
  lastNodeName : String
  nodeDiscoveryTime : Nat
  showingNewNode : Bool
  lastMessageTime : Nat
  excitedStartTime : Nat
  inExcitedState : Bool
  showingMessagePopup : Bool
  messagePopupTime : Nat
  funnyMessageIndex : Nat
  inBlinkState : Bool
  blinkStartTime : Nat
  nextBlinkTime : Nat
  inSenderState : Bool
  senderStartTime : Nat
  senderMessageIndex : Nat
  isSendingMessage : Bool
  inSleepyState : Bool
  sleepyStartTime : Nat
  lastSleepyCycleTime : Nat
  currentSleepyFace : Bool
  lastTxGoodCount : Nat
  lastTextMessageTxTime : Nat
  pendingSenderTrigger : Bool
  lookingCycle : Nat
  lastFaceAnimationTime : Nat
  lastFunnyMessageTime : Nat
  displayNeedsUpdate : Bool
  nodeCheckCounter : Nat
  lastTxGoodCheck : Nat
deriving DecidableEq, Repr

/-- isNightTime: the C computes the local hour when a clock is available and
then returns false on every path (the hour is read into a dead variable). -/
def isNightTime (timeAvailable : Bool) (hour : Nat) : Bool :=
  if timeAvailable = false then false
  else
    let _ := hour
    false

/-- isLowBattery: the battery API is not wired up; the C returns false for
every battery level. -/
def isLowBattery (batteryPercent : Nat) : Bool :=
  let _ := batteryPercent
  false

/-- shouldTriggerBlink: time for a blink and not already blinking. -/
def shouldTriggerBlink (now : Nat) (s : EngineState) : Bool :=
  decide (now ≥ s.nextBlinkTime) && !s.inBlinkState

/-- analyzeTextMessage: pure direction classifier for one packet. -/
def analyzeTextMessage (myNodeNum : Nat) (mp : MeshPacket) : TextMessageDirection :=
  if mp.portnum ≠ meshtastic_PortNum_TEXT_MESSAGE_APP then TEXT_RELAYED
  else
    let isFromMe := mp.fromNode = myNodeNum
    let isBroadcast := mp.toNode = NODENUM_BROADCAST ∨ mp.toNode = 0xffffffff
    let isToMe := mp.toNode = myNodeNum
    let isFirstHop := mp.hopStart = mp.hopLimit ∧ mp.hopLimit > 0
    if isFromMe then
      if isBroadcast then TEXT_BROADCAST_BY_ME else MY_TEXT_TO_SOMEONE
    else if isToMe ∧ ¬isBroadcast then TEXT_TO_ME_DIRECT
    else if isBroadcast ∧ isFirstHop then TEXT_BROADCAST_BY_OTHER
    else TEXT_RELAYED

/-- analyzeTextMessageDirection: direction plus reaction suggestion.  On the
early non-text return the C leaves myNodeNum/recipient/sender uninitialized;
the model uses 0 there (no claim reads them on that path).  The switch has no
cases for MY_TEXT_TO_SOMEONE and TEXT_BROADCAST_BY_ME, so those keep the
defaults shouldReact = true, suggestedState = AWAKE. -/
def analyzeTextMessageDirection (myNodeNum : Nat) (mp : MeshPacket) : TextMessageAnalysis :=
  if mp.portnum ≠ meshtastic_PortNum_TEXT_MESSAGE_APP then
    { direction := TEXT_RELAYED, myNodeNum := 0, recipientNodeNum := 0,
      senderNodeNum := 0, shouldReact := false, suggestedState := AWAKE }
  else
    let d := analyzeTextMessage myNodeNum mp
    let base : TextMessageAnalysis :=
      { direction := d, myNodeNum := myNodeNum, recipientNodeNum := mp.toNode,
        senderNodeNum := mp.fromNode, shouldReact := true, suggestedState := AWAKE }
    match d with
    | TEXT_TO_ME_DIRECT => { base with suggestedState := EXCITED }
    | TEXT_BROADCAST_BY_OTHER => { base with suggestedState := EXCITED }
    | TEXT_RELAYED => { base with shouldReact := false }
    | _ => base

/-- analyzeNodeDiscovery: pure node-count classifier; `isSendingMessage` is
the member flag the C method reads. -/
def analyzeNodeDiscovery (isSendingMessage : Bool) (totalNodeCount previousNodeCount : Nat) :
    NodeDiscoveryType :=
  if previousNodeCount = 0 then FIRST_BOOT_DETECTION
  else if isSendingMessage then SENDING_INTERFERENCE
  else if totalNodeCount > previousNodeCount then NEW_NODE_DISCOVERED
  else if totalNodeCount ≠ previousNodeCount then NODE_COUNT_CHANGED
  else NODE_COUNT_UNCHANGED

/-- The loop in analyzeNodeDiscoveryDirection that scans the node database
for the most recently heard node other than our own, starting from
newestTime = 0 with a strict comparison. -/
def scanNewestNode (myNodeNum : Nat) (nodes : List NodeInfoLite) :
    Option NodeInfoLite × Nat :=
  nodes.foldl
    (fun acc node =>
      if node.num ≠ myNodeNum ∧ node.lastHeard > acc.2 then (some node, node.lastHeard)
      else acc)
    (none, 0)

/-- strncpy into a buffer of n+1 bytes: keep the first n characters. -/
def truncateName (s : String) (n : Nat) : String :=
  (s.toList.take n).asString

/-- Lowercase hex rendering of a node number (the %x of the C snprintf). -/
def hexString (n : Nat) : String :=
  (Nat.toDigits 16 n).asString

/-- Caption width budget from the C: 24 display characters minus the 7
characters of overhead in the greeting leaves 17 for the name. -/
def MAX_NAME_LENGTH : Nat := 17

/-- The node-name resolution of analyzeNodeDiscoveryDirection: long name,
else short name, else hex-formatted node number.  Every produced string fits
the 32-byte nodeName buffer, so the snprintf truncation is the identity. -/
def resolveNodeName (node : NodeInfoLite) : String :=
  if node.hasUser ∧ node.longName.length > 0 then
    "Hello " ++ truncateName node.longName MAX_NAME_LENGTH ++ "!"
  else if node.hasUser ∧ node.shortName.length > 0 then
    "Hello " ++ truncateName node.shortName MAX_NAME_LENGTH ++ "!"
  else
    "Hello Node 0x" ++ hexString node.num ++ "!"

/-- analyzeNodeDiscoveryDirection: classification plus reaction flags and the
resolved display name; `nodes` is the external node database snapshot. -/
def analyzeNodeDiscoveryDirection (isSendingMessage : Bool) (myNodeNum : Nat)
    (nodes : List NodeInfoLite) (totalNodeCount previousNodeCount : Nat) :
    NodeDiscoveryAnalysis :=
  let t := analyzeNodeDiscovery isSendingMessage totalNodeCount previousNodeCount
  let base : NodeDiscoveryAnalysis :=
    { discoveryType := t, totalNodeCount := totalNodeCount,
      previousNodeCount := previousNodeCount, newestNode := none,
      nodeName := "", shouldTriggerHappy := false, shouldUpdateCount := false }
  match t with
  | NEW_NODE_DISCOVERED =>
      let newest := (scanNewestNode myNodeNum nodes).1
      { base with
        newestNode := newest,
        nodeName := match newest with
          | some node => resolveNodeName node
          | none => "",
        shouldTriggerHappy := true, shouldUpdateCount := true }
  | NODE_COUNT_CHANGED => { base with shouldUpdateCount := true }
  | NODE_COUNT_UNCHANGED => base
  | FIRST_BOOT_DETECTION => { base with shouldUpdateCount := true }
  | SENDING_INTERFERENCE => base

/-- The scan loop of updateFriendsList: find the first entry with the given
node id and bump it (uint8 encounter counter, hence mod 256), refreshing its
lastSeen; none when no entry matches. -/
def findAndBump (now nodeId : Nat) : List FriendNode → Option (List FriendNode)
  | [] => none
  | f :: rest =>
      if f.nodeId = nodeId then
        some ({ f with encounters := (f.encounters + 1) % 256, lastSeen := now } :: rest)
      else
        match findAndBump now nodeId rest with
        | some r => some (f :: r)
        | none => none

/-- updateFriendsList on the occupied prefix of the friends array: the scan
loop returns early on a match; otherwise a new record is appended only while
the capacity of MAX_FRIENDS is not reached. -/
def updateFriendsList (now nodeId : Nat) (fs : List FriendNode) : List FriendNode :=
  match findAndBump now nodeId fs with
  | some r => r
  | none =>
      if fs.length < MAX_FRIENDS then
        fs ++ [{ nodeId := nodeId, encounters := 1, lastSeen := now }]
      else fs

/-- handleSleepyStateCycling: enter with SLEEPY1, then toggle the two sleepy
faces every 1000 ms. -/
def handleSleepyStateCycling (now : Nat) (s : EngineState) : PetState × EngineState :=
  if s.inSleepyState = false then
    let s1 := { s with inSleepyState := true, sleepyStartTime := now,
                       lastSleepyCycleTime := now, currentSleepyFace := false,
                       currentState := SLEEPY1, displayNeedsUpdate := true }
    (SLEEPY1, s1)
  else if now - s.lastSleepyCycleTime ≥ 1000 then
    let face := !s.currentSleepyFace
    let s1 := { s with currentSleepyFace := face, lastSleepyCycleTime := now,
                       currentState := if face then SLEEPY2 else SLEEPY1,
                       displayNeedsUpdate := true }
    (s1.currentState, s1)
  else (s.currentState, s)

/-- The BLINK check at the top of calculateNewState: an active blink younger
than 80 ms reports BLINK at once; an expired blink is cleared and the next
blink is rescheduled (`rand` stands for the call random(2000, 5000)) before
falling through. -/
def blinkCheck (now rand : Nat) (s : EngineState) : Option PetState × EngineState :=
  if s.inBlinkState ∧ now - s.blinkStartTime < 80 then (some BLINK, s)
  else if s.inBlinkState then
    (none, { s with inBlinkState := false, nextBlinkTime := now + rand })
  else (none, s)

/-- The SENDER check of calculateNewState: an active Sent state younger than
2 s reports SENDER; an expired one clears the sender, sending and pending
flags before falling through. -/
def senderCheck (now : Nat) (s : EngineState) : Option PetState × EngineState :=
  if s.inSenderState ∧ (now - s.senderStartTime) / 1000 < 2 then (some SENDER, s)
  else if s.inSenderState then
    (none, { s with inSenderState := false, isSendingMessage := false,
                    pendingSenderTrigger := false })
  else (none, s)

/-- The EXCITED/GRATEFUL cycle check of calculateNewState: first 3 s report
EXCITED, next 3 s report GRATEFUL, then the cycle flag is cleared and the
computation falls through. -/
def excitedCheck (now : Nat) (s : EngineState) : Option PetState × EngineState :=
  if s.inExcitedState ∧ (now - s.excitedStartTime) / 1000 < 3 then (some EXCITED, s)
  else if s.inExcitedState ∧ (now - s.excitedStartTime) / 1000 < 6 then (some GRATEFUL, s)
  else if s.inExcitedState then (none, { s with inExcitedState := false })
  else (none, s)

/-- The tail of calculateNewState reached on the daytime side: force the
sleepy state off and the current state to AWAKE, then HAPPY while a fresh
discovery is showing, then the blink trigger and the 1 s look-around cycle
and the 5 s caption rotation while nodes are known, else AWAKE. -/
def idleAnimation (now : Nat) (s3 : EngineState) : PetState × EngineState :=
  let s4 := { s3 with inSleepyState := false, currentState := AWAKE,
                      displayNeedsUpdate := true }
  if s4.showingNewNode ∧ now - s4.nodeDiscoveryTime < 8000 then (HAPPY, s4)
  else if s4.currentNodeCount > 0 then
    if s4.currentState = AWAKE ∧ shouldTriggerBlink now s4 then
      (BLINK, { s4 with inBlinkState := true, blinkStartTime := now,
                        currentState := BLINK, displayNeedsUpdate := true })
    else
      let s5 := if now - s4.lastFaceAnimationTime ≥ 1000 then
          { s4 with lookingCycle := (s4.lookingCycle + 1) % 3,
                    lastFaceAnimationTime := now,
                    currentState :=
                      if (s4.lookingCycle + 1) % 3 = 0 then LOOKING_AROUND_LEFT
                      else if (s4.lookingCycle + 1) % 3 = 1 then LOOKING_AROUND_RIGHT
                      else AWAKE,
                    displayNeedsUpdate := true }
        else s4
      let s6 := if now - s5.lastFunnyMessageTime ≥ 5000 then
          { s5 with funnyMessageIndex := (s5.funnyMessageIndex + 1) % 8,
                    lastFunnyMessageTime := now }
        else s5
      (s6.currentState, s6)
  else (AWAKE, s4)

/-- calculateNewState: the priority pipeline of the C function — the BLINK,
SENDER and EXCITED/GRATEFUL checks with their early returns, then the sleepy
gate, then the idle/discovery animation tail.  Returns the computed state
together with the mutated module fields (the C mutates members and returns a
PetState). -/
def calculateNewState (now rand : Nat) (timeAvailable : Bool) (hour batteryPercent : Nat)
    (s0 : EngineState) : PetState × EngineState :=
  match blinkCheck now rand s0 with
  | (some st, s1) => (st, s1)
  | (none, s1) =>
    match senderCheck now s1 with
    | (some st, s2) => (st, s2)
    | (none, s2) =>
      match excitedCheck now s2 with
      | (some st, s3) => (st, s3)
      | (none, s3) =>
        if isNightTime timeAvailable hour ∨ isLowBattery batteryPercent then
          handleSleepyStateCycling now s3
        else
          idleAnimation now s3

/-- updatePetState: adopt the computed state immediately when the transition
touches EXCITED, HAPPY or SENDER, otherwise only after more than 5000 ms
since the last recorded state change.  (The C's nested periodic saveState
call compares now against the lastStateChange it has just set, so it never
fires and is not modelled.) -/
def updatePetState (now rand : Nat) (timeAvailable : Bool) (hour batteryPercent : Nat)
    (s : EngineState) : EngineState :=
  let r := calculateNewState now rand timeAvailable hour batteryPercent s
  let newState := r.1
  let s1 := r.2
  if newState ≠ s1.currentState ∧
      (newState = EXCITED ∨ s1.currentState = EXCITED ∨
       newState = HAPPY ∨ s1.currentState = HAPPY ∨
       newState = SENDER ∨ s1.currentState = SENDER ∨
       now - s1.lastStateChange > 5000) then
    { s1 with previousState := s1.currentState, currentState := newState,
              lastStateChange := now, displayNeedsUpdate := true }
  else s1

/-- processNetworkEvent: bump the uint16 event counter and refresh activity. -/
def processNetworkEvent (now : Nat) (s : EngineState) : EngineState :=
  { s with networkEventCount := (s.networkEventCount + 1) % 65536,
           lastActivityTime := now, displayNeedsUpdate := true }

/-- handleReceived: qualifying inbound packets (text port 1 or position
port 3, nonzero sender) start the EXCITED/GRATEFUL cycle at once; the other
text branch only runs the analyzer, whose suggested reaction is not acted
on; any nonzero sender updates the friends list.  The popup text copy is a
display concern and not modelled beyond its flags. -/
def handleReceived (now myNodeNum : Nat) (mp : MeshPacket) (s : EngineState) : EngineState :=
  let s0 := processNetworkEvent now s
  let s1 :=
    if (mp.portnum = 1 ∨ mp.portnum = 3) ∧ mp.fromNode ≠ 0 then
      { s0 with lastMessageTime := now, excitedStartTime := now,
                inExcitedState := true, showingMessagePopup := true,
                messagePopupTime := now, previousState := s0.currentState,
                currentState := EXCITED, lastStateChange := now,
                displayNeedsUpdate := true }
    else
      -- the analyzeTextMessageDirection branch: its switch only breaks,
      -- so no field changes
      let _ := analyzeTextMessageDirection myNodeNum mp
      s0
  if mp.fromNode ≠ 0 then
    let fs := updateFriendsList now mp.fromNode s1.friends
    { s1 with friends := fs, friendCount := fs.length }
  else s1

/-- triggerSenderState: enter SENDER immediately. -/
def triggerSenderState (now : Nat) (s : EngineState) : EngineState :=
  { s with inSenderState := true, senderStartTime := now,
           senderMessageIndex := (s.senderMessageIndex + 1) % 5,
           isSendingMessage := true, pendingSenderTrigger := false,
           previousState := s.currentState, currentState := SENDER,
           lastStateChange := now, displayNeedsUpdate := true }

/-- executeSenderDetection: every 750 ms, when idle on the sending side,
sample the radio's txGood counter; a pending correlation hint younger than
500 ms attributes any increase to a local text send, and an increase of
exactly one with no pending hint is attributed to an unobserved direct
send.  `instancePresent` models RadioLibInterface::instance != nullptr and
`txGood` the sampled counter. -/
def executeSenderDetection (now : Nat) (instancePresent : Bool) (txGood : Nat)
    (s : EngineState) : EngineState :=
  if now - s.lastTxGoodCheck > 750 then
    let s0 := { s with lastTxGoodCheck := now }
    if instancePresent ∧ s0.inSenderState = false ∧ s0.isSendingMessage = false then
      if txGood > s0.lastTxGoodCount then
        let txIncrease := txGood - s0.lastTxGoodCount
        let s1 :=
          if s0.pendingSenderTrigger ∧ now - s0.lastTextMessageTxTime < 500 then
            { triggerSenderState now { s0 with isSendingMessage := true } with
              pendingSenderTrigger := false }
          else if s0.pendingSenderTrigger = false ∧ txIncrease = 1 then
            triggerSenderState now { s0 with isSendingMessage := true }
          else s0
        { s1 with lastTxGoodCount := txGood }
      else s0
    else s0
  else s

/-- executeNodeDiscoveryCheck: only every fourth pass, compare the node
database population against the cached count via the discovery analysis,
and on a discovery record the node and enter HAPPY immediately. -/
def executeNodeDiscoveryCheck (now myNodeNum : Nat) (nodes : List NodeInfoLite)
    (totalNodeCount : Nat) (s : EngineState) : EngineState :=
  if s.nodeCheckCounter + 1 < 4 then { s with nodeCheckCounter := s.nodeCheckCounter + 1 }
  else
    let s0 := { s with nodeCheckCounter := 0 }
    let analysis := analyzeNodeDiscoveryDirection s0.isSendingMessage myNodeNum nodes
      totalNodeCount s0.currentNodeCount
    let s1 := if analysis.shouldUpdateCount then
        -- currentNodeCount is a uint8_t member assigned from a size_t
        processNetworkEvent now { s0 with currentNodeCount := totalNodeCount % 256 }
      else s0
    if analysis.shouldTriggerHappy then
      { s1 with lastDiscoveredNode := totalNodeCount, nodeDiscoveryTime := now,
                showingNewNode := true,
                lastNodeName := truncateName analysis.nodeName 31,
                previousState := s1.currentState, currentState := HAPPY,
                lastStateChange := now, displayNeedsUpdate := true }
    else s1

/-- executeDisplayUpdate: expire the new-node caption after 10 s and clear a
stuck sending flag after 5 s. -/
def executeDisplayUpdate (now : Nat) (s : EngineState) : EngineState :=
  let s0 := if s.showingNewNode ∧ now - s.nodeDiscoveryTime > 10000 then
      { s with showingNewNode := false }
    else s
  if s0.isSendingMessage ∧ now - s0.senderStartTime > 5000 then
    { s0 with isSendingMessage := false }
  else s0

/-- testExcitedState: the public debug hook that forces the cycle. -/
def testExcitedState (now : Nat) (s : EngineState) : EngineState :=
  { s with excitedStartTime := now, inExcitedState := true,
           previousState := s.currentState, currentState := EXCITED,
           lastStateChange := now, displayNeedsUpdate := true }

/-- The persisted snapshot as read back from the "lorabot" preferences
namespace.  The friends blob is a byte string of length
sizeof(FriendNode) * (number of stored records); it is modelled by the list
of stored records, so a byte-length mismatch is a record-count mismatch. -/
structure LoRabotPrefs : Type where
  stateByte : Nat
  lastActivity : Nat
  friendCountByte : Nat
  friendsBlob : List FriendNode
deriving DecidableEq, Repr

def sizeofFriendNode : Nat := 12

/-- saveState: persist the state byte, activity time, friend count byte and
the first friendCount friend records. -/
def saveState (s : EngineState) : LoRabotPrefs :=
  { stateByte := s.currentState % 256, lastActivity := s.lastActivityTime,
    friendCountByte := s.friendCount % 256,
    friendsBlob := s.friends.take s.friendCount }

/-- loadState: read the snapshot back; the friends blob is only accepted
when its byte length equals sizeof(FriendNode) * friendCount, otherwise
friendCount is reset to 0.  A declared friendCount above MAX_FRIENDS skips
the whole load block, leaving the declared count in place. -/
def loadState (p : LoRabotPrefs) (s : EngineState) : EngineState :=
  let s0 := { s with currentState := p.stateByte % 256,
                     lastActivityTime := p.lastActivity,
                     friendCount := p.friendCountByte % 256 }
  if s0.friendCount > 0 ∧ s0.friendCount ≤ MAX_FRIENDS then
    if sizeofFriendNode * p.friendsBlob.length = sizeofFriendNode * s0.friendCount then
      { s0 with friends := p.friendsBlob }
    else { s0 with friendCount := 0 }
  else s0

/-- The constructor's field initialisation (before loadState runs); `rand`
stands for random(2000, 4000), the first blink delay. -/
def constructedState (now rand : Nat) : EngineState :=
  { currentState := AWAKE, previousState := AWAKE, lastActivityTime := now,
    lastStateChange := now, networkEventCount := 0, currentNodeCount := 0,
    friends := [], friendCount := 0, lastDiscoveredNode := 0,
    lastNodeName := "", nodeDiscoveryTime := 0, showingNewNode := false,
    lastMessageTime := 0, excitedStartTime := 0, inExcitedState := false,
    showingMessagePopup := false, messagePopupTime := 0, funnyMessageIndex := 0,
    inBlinkState := false, blinkStartTime := 0, nextBlinkTime := now + rand,
    inSenderState := false, senderStartTime := 0, senderMessageIndex := 0,
    isSendingMessage := false, inSleepyState := false, sleepyStartTime := 0,
    lastSleepyCycleTime := 0, currentSleepyFace := false, lastTxGoodCount := 0,
    lastTextMessageTxTime := 0, pendingSenderTrigger := false, lookingCycle := 0,
    lastFaceAnimationTime := 0, lastFunnyMessageTime := 0,
    displayNeedsUpdate := true, nodeCheckCounter := 0, lastTxGoodCheck := 0 }

/-- A fresh preferences namespace: every read yields its default. -/
def defaultPrefs (now : Nat) : LoRabotPrefs :=
  { stateByte := AWAKE, lastActivity := now, friendCountByte := 0, friendsBlob := [] }

/-- Constructor followed by loadState. -/
def initialEngineState (now rand : Nat) (p : LoRabotPrefs) : EngineState :=
  loadState p (constructedState now rand)

/-- The states an engine instance can be in: a fresh boot, a reboot from its
own saved snapshot, or any of the module's transitions with arbitrary inputs
in arbitrary order (a superset of the real scheduler's interleavings, which
is sound for the safety invariants proved below). -/
inductive Reachable : EngineState → Prop where
  | boot (now rand : Nat) :
      Reachable (initialEngineState now rand (defaultPrefs now))
  | reload (now rand : Nat) {s : EngineState} :
      Reachable s → Reachable (initialEngineState now rand (saveState s))
  | stepUpdate (now rand : Nat) (timeAvailable : Bool) (hour batteryPercent : Nat)
      {s : EngineState} :
      Reachable s → Reachable (updatePetState now rand timeAvailable hour batteryPercent s)
  | stepReceive (now myNodeNum : Nat) (mp : MeshPacket) {s : EngineState} :
      Reachable s → Reachable (handleReceived now myNodeNum mp s)
  | stepDiscovery (now myNodeNum : Nat) (nodes : List NodeInfoLite)
      (totalNodeCount : Nat) {s : EngineState} :
      Reachable s → Reachable (executeNodeDiscoveryCheck now myNodeNum nodes totalNodeCount s)
  | stepSender (now : Nat) (instancePresent : Bool) (txGood : Nat) {s : EngineState} :
      Reachable s → Reachable (executeSenderDetection now instancePresent txGood s)
  | stepDisplay (now : Nat) {s : EngineState} :
      Reachable s → Reachable (executeDisplayUpdate now s)
  | stepTest (now : Nat) {s : EngineState} :
      Reachable s → Reachable (testExcitedState now s)

/-! Spec-side rule definitions used to compare the classifier against the
exact wording of the specification. -/

/-- The message-direction rule exactly as the specification words it:
SelfBroadcast when from is local and to is broadcast; SelfToOther when from
is local; OtherToMeDirect when to is local and not broadcast; OtherBroadcast
when broadcast and the hop-used field equals the hop limit; Relayed in every
remaining case. -/
def textDirectionPerSpec (myNodeNum : Nat) (mp : MeshPacket) : TextMessageDirection :=
  if mp.portnum ≠ meshtastic_PortNum_TEXT_MESSAGE_APP then TEXT_RELAYED
  else if mp.fromNode = myNodeNum ∧ mp.toNode = NODENUM_BROADCAST then TEXT_BROADCAST_BY_ME
  else if mp.fromNode = myNodeNum then MY_TEXT_TO_SOMEONE
  else if mp.toNode = myNodeNum ∧ mp.toNode ≠ NODENUM_BROADCAST then TEXT_TO_ME_DIRECT
  else if mp.toNode = NODENUM_BROADCAST ∧ mp.hopStart = mp.hopLimit then TEXT_BROADCAST_BY_OTHER
  else TEXT_RELAYED

/-- The message-direction rule amended as the code forces: the OtherBroadcast
case additionally requires a positive hop limit. -/
def textDirectionAmended (myNodeNum : Nat) (mp : MeshPacket) : TextMessageDirection :=
  if mp.portnum ≠ meshtastic_PortNum_TEXT_MESSAGE_APP then TEXT_RELAYED
  else if mp.fromNode = myNodeNum ∧ mp.toNode = NODENUM_BROADCAST then TEXT_BROADCAST_BY_ME
  else if mp.fromNode = myNodeNum then MY_TEXT_TO_SOMEONE
  else if mp.toNode = myNodeNum ∧ mp.toNode ≠ NODENUM_BROADCAST then TEXT_TO_ME_DIRECT
  else if mp.toNode = NODENUM_BROADCAST ∧ mp.hopStart = mp.hopLimit ∧ mp.hopLimit > 0 then
    TEXT_BROADCAST_BY_OTHER
  else TEXT_RELAYED

/-- A broadcast text packet from another node that consumed zero hops but
was sent with hop limit 0: the spec rule calls it OtherBroadcast, the code
calls it Relayed. -/
def pktC2 : MeshPacket :=
  { fromNode := 2, toNode := NODENUM_BROADCAST, portnum := 1, hopStart := 0, hopLimit := 0 }

/-- Claim C2 counterexample: on a zero-hop-limit broadcast text packet the
classifier returns Relayed although the claimed rule (broadcast and hop-used
equal to hop limit, no positivity condition) demands OtherBroadcast. -/
theorem claim_C2_counterexample :
    pktC2.portnum = meshtastic_PortNum_TEXT_MESSAGE_APP ∧
    analyzeTextMessage 1 pktC2 = TEXT_RELAYED ∧
    textDirectionPerSpec 1 pktC2 = TEXT_BROADCAST_BY_OTHER ∧
    TEXT_RELAYED ≠ TEXT_BROADCAST_BY_OTHER := by
  refine ⟨rfl, by decide, by decide, by decide⟩

/-- Claim C2 (amended): for every text-class packet the direction classifier
follows the claimed cascade, with the OtherBroadcast case additionally
requiring a positive hop limit. -/
theorem claim_C2 (myNodeNum : Nat) (mp : MeshPacket)
    (hp : mp.portnum = meshtastic_PortNum_TEXT_MESSAGE_APP) :
    analyzeTextMessage myNodeNum mp = textDirectionAmended myNodeNum mp := by
  rcases mp with ⟨f, t, p, hs, hl⟩
  simp only [meshtastic_PortNum_TEXT_MESSAGE_APP] at hp
  subst hp
  unfold analyzeTextMessage textDirectionAmended
  simp only [meshtastic_PortNum_TEXT_MESSAGE_APP, NODENUM_BROADCAST, or_self, ne_eq]
  split_ifs <;> tauto

/-- Claim C2 witness: a concrete direct text to the local node classifies
identically under the code and the amended rule. -/
theorem claim_C2_witness :
    analyzeTextMessage 1 { fromNode := 2, toNode := 1, portnum := 1,
                           hopStart := 3, hopLimit := 3 } =
      textDirectionAmended 1 { fromNode := 2, toNode := 1, portnum := 1,
                               hopStart := 3, hopLimit := 3 } ∧
    analyzeTextMessage 1 { fromNode := 2, toNode := 1, portnum := 1,
                           hopStart := 3, hopLimit := 3 } = TEXT_TO_ME_DIRECT :=
  ⟨claim_C2 1 _ rfl, by decide⟩

/-- A text packet sent by the local node to a peer: direction is
MY_TEXT_TO_SOMEONE yet the analysis marks it shouldReact = true. -/
def pktC3 : MeshPacket :=
  { fromNode := 1, toNode := 2, portnum := 1, hopStart := 3, hopLimit := 3 }

/-- A multi-hop text between two other nodes (node 7 to node 9, one hop
consumed), seen by the local node 1: its direction is Relayed. -/
def pktC3b : MeshPacket :=
  { fromNode := 7, toNode := 9, portnum := 1, hopStart := 3, hopLimit := 1 }

/-- Claim C3 counterexample, both failing parts: a self-originated direct
text is classified MY_TEXT_TO_SOMEONE (neither OtherToMeDirect nor
OtherBroadcast) and is nevertheless marked reactive; and a relayed text with
a nonzero sender, although marked non-reactive by the analysis, makes
handleReceived enter the Received (EXCITED) cycle — relayed background
traffic does move the state machine. -/
theorem claim_C3_counterexample :
    (analyzeTextMessageDirection 1 pktC3).direction = MY_TEXT_TO_SOMEONE ∧
    (analyzeTextMessageDirection 1 pktC3).shouldReact = true ∧
    MY_TEXT_TO_SOMEONE ≠ TEXT_TO_ME_DIRECT ∧
    MY_TEXT_TO_SOMEONE ≠ TEXT_BROADCAST_BY_OTHER ∧
    (analyzeTextMessageDirection 1 pktC3b).direction = TEXT_RELAYED ∧
    (analyzeTextMessageDirection 1 pktC3b).shouldReact = false ∧
    (constructedState 0 2000).currentState ≠ EXCITED ∧
    (handleReceived 5000 1 pktC3b (constructedState 0 2000)).currentState = EXCITED ∧
    (handleReceived 5000 1 pktC3b (constructedState 0 2000)).inExcitedState = true := by
  refine ⟨by decide, by decide, by decide, by decide, by decide, by decide, by decide,
    by decide, by decide⟩

/-- Claim C3 (amended): the analysis suggests the Received (EXCITED) state
exactly for the directions OtherToMeDirect and OtherBroadcast; for
text-class packets shouldReact is false exactly on Relayed, so the
self-originated directions are also marked shouldReact = true (with the
default Awake suggestion); and the packet handler never consults that flag:
every text or position packet with a nonzero sender — the Relayed direction
included — immediately enters the Received (EXCITED) cycle, while a packet
with sender id 0 (the only path on which the analysis runs) leaves the
emotional state unchanged. -/
theorem claim_C3 (myNodeNum : Nat) (mp : MeshPacket) :
    ((analyzeTextMessageDirection myNodeNum mp).suggestedState = EXCITED ↔
      ((analyzeTextMessageDirection myNodeNum mp).direction = TEXT_TO_ME_DIRECT ∨
       (analyzeTextMessageDirection myNodeNum mp).direction = TEXT_BROADCAST_BY_OTHER))
  ∧ ((analyzeTextMessageDirection myNodeNum mp).direction = TEXT_RELAYED →
      (analyzeTextMessageDirection myNodeNum mp).shouldReact = false)
  ∧ (mp.portnum = meshtastic_PortNum_TEXT_MESSAGE_APP →
      ((analyzeTextMessageDirection myNodeNum mp).shouldReact = false ↔
        (analyzeTextMessageDirection myNodeNum mp).direction = TEXT_RELAYED))
  ∧ (∀ (now : Nat) (s : EngineState),
      (mp.portnum = 1 ∨ mp.portnum = 3) → mp.fromNode ≠ 0 →
      ((handleReceived now myNodeNum mp s).currentState = EXCITED ∧
       (handleReceived now myNodeNum mp s).inExcitedState = true))
  ∧ (∀ (now : Nat) (s : EngineState), mp.fromNode = 0 →
      ((handleReceived now myNodeNum mp s).currentState = s.currentState ∧
       (handleReceived now myNodeNum mp s).inExcitedState = s.inExcitedState ∧
       (handleReceived now myNodeNum mp s).lastStateChange = s.lastStateChange)) := by
  refine ⟨?_, ?_, ?_, ?_, ?_⟩
  · by_cases hp : mp.portnum = meshtastic_PortNum_TEXT_MESSAGE_APP
    · unfold analyzeTextMessageDirection
      rw [if_neg (by simp [hp])]
      cases h : analyzeTextMessage myNodeNum mp <;> simp [h, hp]
    · unfold analyzeTextMessageDirection
      rw [if_pos (by simpa using hp)]
      simp [hp]
  · by_cases hp : mp.portnum = meshtastic_PortNum_TEXT_MESSAGE_APP
    · unfold analyzeTextMessageDirection
      rw [if_neg (by simp [hp])]
      cases h : analyzeTextMessage myNodeNum mp <;> simp [h, hp]
    · unfold analyzeTextMessageDirection
      rw [if_pos (by simpa using hp)]
      simp [hp]
  · intro hp
    unfold analyzeTextMessageDirection
    rw [if_neg (by simp [hp])]
    cases h : analyzeTextMessage myNodeNum mp <;> simp [h, hp]
  · intro now s hport hfrom
    unfold handleReceived processNetworkEvent
    simp only []
    split_ifs <;> simp_all
  · intro now s hfrom0
    unfold handleReceived processNetworkEvent
    simp only []
    split_ifs <;> simp_all

/-- Claim C3 witness: a concrete broadcast first-hop text from a peer is
suggested EXCITED, marked reactive, and entering it through the packet
handler puts the engine in the EXCITED state at once. -/
theorem claim_C3_witness :
    (analyzeTextMessageDirection 1 { fromNode := 2, toNode := NODENUM_BROADCAST,
                                     portnum := 1, hopStart := 3, hopLimit := 3 }).suggestedState
      = EXCITED ∧
    (analyzeTextMessageDirection 1 { fromNode := 2, toNode := NODENUM_BROADCAST,
                                     portnum := 1, hopStart := 3, hopLimit := 3 }).shouldReact
      = true ∧
    (handleReceived 5000 1 { fromNode := 2, toNode := NODENUM_BROADCAST,
                             portnum := 1, hopStart := 3, hopLimit := 3 }
        (constructedState 0 2000)).currentState = EXCITED :=
  ⟨(claim_C3 1 _).1.mpr (Or.inr (by decide)), by decide,
   ((claim_C3 1 _).2.2.2.1 5000 (constructedState 0 2000) (Or.inl rfl) (by decide)).1⟩

/-- Claim C1: the node-discovery classifier follows the specified cascade
(FirstBoot when previous is 0, else SuppressedBySend when sending, else
NewNodeFound on an increase, else CountChangedOtherwise on any other change,
else CountUnchanged), and of these outcomes exactly NewNodeFound raises the
shouldTriggerHappy flag that drives the Discovered (HAPPY) state, so the
first observation never triggers it and a genuine later increase does; on
the engine level, a discovery pass that samples the counter enters HAPPY
exactly when that flag is raised. -/
theorem claim_C1 (sending : Bool) (myNodeNum : Nat) (nodes : List NodeInfoLite)
    (total prev : Nat) :
    (prev = 0 → analyzeNodeDiscovery sending total prev = FIRST_BOOT_DETECTION)
  ∧ (prev ≠ 0 → sending = true →
      analyzeNodeDiscovery sending total prev = SENDING_INTERFERENCE)
  ∧ (prev ≠ 0 → sending = false → total > prev →
      analyzeNodeDiscovery sending total prev = NEW_NODE_DISCOVERED)
  ∧ (prev ≠ 0 → sending = false → ¬total > prev → total ≠ prev →
      analyzeNodeDiscovery sending total prev = NODE_COUNT_CHANGED)
  ∧ (prev ≠ 0 → sending = false → total = prev →
      analyzeNodeDiscovery sending total prev = NODE_COUNT_UNCHANGED)
  ∧ ((analyzeNodeDiscoveryDirection sending myNodeNum nodes total prev).shouldTriggerHappy = true
      ↔ analyzeNodeDiscovery sending total prev = NEW_NODE_DISCOVERED)
  ∧ (prev = 0 →
      (analyzeNodeDiscoveryDirection sending myNodeNum nodes total prev).shouldTriggerHappy
        = false)
  ∧ (prev ≠ 0 → sending = false → total > prev →
      (analyzeNodeDiscoveryDirection sending myNodeNum nodes total prev).shouldTriggerHappy
        = true)
  ∧ (∀ (now : Nat) (s : EngineState), ¬s.nodeCheckCounter + 1 < 4 →
      s.isSendingMessage = sending → s.currentNodeCount = prev →
      ((executeNodeDiscoveryCheck now myNodeNum nodes total s).currentState = HAPPY ↔
        (analyzeNodeDiscovery sending total prev = NEW_NODE_DISCOVERED ∨
         s.currentState = HAPPY))) := by
  have htrig : (analyzeNodeDiscoveryDirection sending myNodeNum nodes total prev).shouldTriggerHappy
      = true ↔ analyzeNodeDiscovery sending total prev = NEW_NODE_DISCOVERED := by
    unfold analyzeNodeDiscoveryDirection
    cases h : analyzeNodeDiscovery sending total prev <;> simp [h]
  refine ⟨?_, ?_, ?_, ?_, ?_, htrig, ?_, ?_, ?_⟩
  · intro h; simp [analyzeNodeDiscovery, h]
  · intro h hs; simp [analyzeNodeDiscovery, h, hs]
  · intro h hs hgt; simp [analyzeNodeDiscovery, h, hs, hgt]
  · intro h hs hgt hne; simp [analyzeNodeDiscovery, h, hs, hgt, hne]
  · intro h hs he; simp [analyzeNodeDiscovery, h, hs, he]
  · intro h
    cases hb : (analyzeNodeDiscoveryDirection sending myNodeNum nodes total prev).shouldTriggerHappy
    · rfl
    · exact absurd (htrig.mp hb) (by simp [analyzeNodeDiscovery, h])
  · intro h hs hgt
    exact htrig.mpr (by simp [analyzeNodeDiscovery, h, hs, hgt])
  · intro now s hcnt hsend hprev
    unfold executeNodeDiscoveryCheck
    rw [if_neg hcnt]
    simp only []
    cases hb : (analyzeNodeDiscoveryDirection s.isSendingMessage myNodeNum nodes total
        s.currentNodeCount).shouldTriggerHappy
    · have hnot : analyzeNodeDiscovery sending total prev ≠ NEW_NODE_DISCOVERED := by
        intro hn
        rw [hsend, hprev] at hb
        rw [htrig.mpr hn] at hb
        exact Bool.noConfusion hb
      rw [if_neg (by simp [hb])]
      constructor
      · intro hcur
        refine Or.inr ?_
        by_cases hu : (analyzeNodeDiscoveryDirection s.isSendingMessage myNodeNum nodes total
            s.currentNodeCount).shouldUpdateCount
        · simpa [hu, processNetworkEvent] using hcur
        · simpa [hu] using hcur
      · intro hor
        rcases hor with hn | hcur
        · exact absurd hn hnot
        · by_cases hu : (analyzeNodeDiscoveryDirection s.isSendingMessage myNodeNum nodes total
              s.currentNodeCount).shouldUpdateCount
          · simpa [hu, processNetworkEvent] using hcur
          · simpa [hu] using hcur
    · have hn : analyzeNodeDiscovery sending total prev = NEW_NODE_DISCOVERED := by
        apply htrig.mp
        rw [hsend, hprev] at hb
        exact hb
      rw [if_pos (by simp [hb])]
      simp [hn]

/-- Claim C1 witness: with a genuine increase 3 to 5 while not sending the
classifier reports a discovery and the flag is raised; the first observation
(previous count 0) does not raise it. -/
theorem claim_C1_witness :
    analyzeNodeDiscovery false 5 3 = NEW_NODE_DISCOVERED ∧
    (analyzeNodeDiscoveryDirection false 1 [] 5 3).shouldTriggerHappy = true ∧
    (analyzeNodeDiscoveryDirection false 1 [] 1 0).shouldTriggerHappy = false :=
  ⟨(claim_C1 false 1 [] 5 3).2.2.1 (by decide) rfl (by decide),
   (claim_C1 false 1 [] 5 3).2.2.2.2.2.2.2.1 (by decide) rfl (by decide),
   (claim_C1 false 1 [] 1 0).2.2.2.2.2.2.1 rfl⟩

/-- The entry update applied by the updateFriendsList scan loop on a match. -/
def bumpFriend (now nodeId : Nat) (f : FriendNode) : FriendNode :=
  if f.nodeId = nodeId then
    { f with encounters := (f.encounters + 1) % 256, lastSeen := now }
  else f

theorem findAndBump_eq_none (now nodeId : Nat) (fs : List FriendNode)
    (h : ∀ f ∈ fs, f.nodeId ≠ nodeId) : findAndBump now nodeId fs = none := by
  induction fs with
  | nil => rfl
  | cons f rest ih =>
      unfold findAndBump
      rw [if_neg (h f (List.mem_cons_self f rest))]
      rw [ih (fun g hg => h g (List.mem_cons_of_mem f hg))]

theorem findAndBump_none_forall (now nodeId : Nat) (fs : List FriendNode)
    (h : findAndBump now nodeId fs = none) : ∀ f ∈ fs, f.nodeId ≠ nodeId := by
  induction fs with
  | nil => intro f hf; exact absurd hf (List.not_mem_nil f)
  | cons f rest ih =>
      intro g hg
      unfold findAndBump at h
      by_cases hf : f.nodeId = nodeId
      · rw [if_pos hf] at h; exact Option.noConfusion h
      · rw [if_neg hf] at h
        rcases List.mem_cons.mp hg with hgf | hgr
        · rw [hgf]; exact hf
        · cases hrec : findAndBump now nodeId rest with
          | none => exact ih hrec g hgr
          | some r => rw [hrec] at h; exact Option.noConfusion h

theorem findAndBump_ids (now nodeId : Nat) (fs r : List FriendNode)
    (h : findAndBump now nodeId fs = some r) :
    r.map FriendNode.nodeId = fs.map FriendNode.nodeId := by
  induction fs generalizing r with
  | nil => exact Option.noConfusion h
  | cons f rest ih =>
      unfold findAndBump at h
      by_cases hf : f.nodeId = nodeId
      · rw [if_pos hf] at h
        cases h
        simp
      · rw [if_neg hf] at h
        cases hrec : findAndBump now nodeId rest with
        | none => rw [hrec] at h; exact Option.noConfusion h
        | some r2 =>
            rw [hrec] at h
            cases h
            simp [ih r2 hrec]

theorem map_bumpFriend_id (now nodeId : Nat) (fs : List FriendNode)
    (h : ∀ f ∈ fs, f.nodeId ≠ nodeId) : fs.map (bumpFriend now nodeId) = fs := by
  induction fs with
  | nil => rfl
  | cons f rest ih =>
      simp only [List.map_cons]
      rw [show bumpFriend now nodeId f = f from
            by unfold bumpFriend; rw [if_neg (h f (List.mem_cons_self f rest))]]
      rw [ih (fun g hg => h g (List.mem_cons_of_mem f hg))]

theorem findAndBump_eq_map (now nodeId : Nat) (fs : List FriendNode)
    (hnd : (fs.map FriendNode.nodeId).Nodup)
    (g : FriendNode) (hg : g ∈ fs) (hid : g.nodeId = nodeId) :
    findAndBump now nodeId fs = some (fs.map (bumpFriend now nodeId)) := by
  induction fs with
  | nil => exact absurd hg (List.not_mem_nil g)
  | cons f rest ih =>
      simp only [List.map_cons, List.nodup_cons] at hnd
      unfold findAndBump
      by_cases hf : f.nodeId = nodeId
      · rw [if_pos hf]
        have hrest : ∀ x ∈ rest, x.nodeId ≠ nodeId := by
          intro x hx hxe
          exact hnd.1 (by rw [hf, ← hxe]; exact List.mem_map_of_mem FriendNode.nodeId hx)
        rw [List.map_cons, map_bumpFriend_id now nodeId rest hrest]
        have hbf : bumpFriend now nodeId f =
            { f with encounters := (f.encounters + 1) % 256, lastSeen := now } := by
          unfold bumpFriend; rw [if_pos hf]
        rw [hbf]
      · rw [if_neg hf]
        rcases List.mem_cons.mp hg with hgf | hgr
        · exact absurd (by rw [← hgf]; exact hid) hf
        · rw [ih hnd.2 hgr]
          simp only [List.map_cons]
          rw [show bumpFriend now nodeId f = f from by unfold bumpFriend; rw [if_neg hf]]

/-- Claim C9 counterexample: an entry whose uint8 encounter counter stands at
255 is not incremented to 256; the counter wraps to 0. -/
theorem claim_C9_counterexample :
    updateFriendsList 100 5 [{ nodeId := 5, encounters := 255, lastSeen := 0 }] =
      [{ nodeId := 5, encounters := 0, lastSeen := 100 }] ∧
    (0 : Nat) ≠ 255 + 1 := by
  refine ⟨by decide, by decide⟩

/-- Claim C9 (amended): updating with an id already present bumps exactly
that entry (encounter counter incremented modulo 256, the width of the uint8
counter, and lastSeen refreshed), keeps positions and every other entry
unchanged, creates no duplicate and keeps the length; updating with a new
distinct id appends it only while fewer than 8 entries exist and is dropped
when the list is full; id-deduplication and the capacity bound of 8 are
preserved. -/
theorem claim_C9 (now nodeId : Nat) (fs : List FriendNode) :
    ((∀ f ∈ fs, f.nodeId ≠ nodeId) → fs.length < MAX_FRIENDS →
       updateFriendsList now nodeId fs =
         fs ++ [{ nodeId := nodeId, encounters := 1, lastSeen := now }])
  ∧ ((∀ f ∈ fs, f.nodeId ≠ nodeId) → ¬fs.length < MAX_FRIENDS →
       updateFriendsList now nodeId fs = fs)
  ∧ ((fs.map FriendNode.nodeId).Nodup → ∀ g ∈ fs, g.nodeId = nodeId →
       updateFriendsList now nodeId fs = fs.map (bumpFriend now nodeId))
  ∧ ((fs.map FriendNode.nodeId).Nodup →
       ((updateFriendsList now nodeId fs).map FriendNode.nodeId).Nodup)
  ∧ (fs.length ≤ MAX_FRIENDS → (updateFriendsList now nodeId fs).length ≤ MAX_FRIENDS)
  ∧ ((fs.map FriendNode.nodeId).Nodup → ∀ g ∈ fs, g.nodeId = nodeId →
       (updateFriendsList now nodeId fs).length = fs.length) := by
  refine ⟨?_, ?_, ?_, ?_, ?_, ?_⟩
  · intro h hlt
    unfold updateFriendsList
    rw [findAndBump_eq_none now nodeId fs h, if_pos hlt]
  · intro h hge
    unfold updateFriendsList
    rw [findAndBump_eq_none now nodeId fs h, if_neg hge]
  · intro hnd g hg hid
    unfold updateFriendsList
    rw [findAndBump_eq_map now nodeId fs hnd g hg hid]
  · intro hnd
    unfold updateFriendsList
    cases hm : findAndBump now nodeId fs with
    | some r =>
        simp only []
        rw [findAndBump_ids now nodeId fs r hm]
        exact hnd
    | none =>
        simp only []
        split_ifs with hlt
        · rw [List.map_append]
          rw [List.nodup_append]
          refine ⟨hnd, List.nodup_singleton nodeId, ?_⟩
          intro x hx
          simp only [List.map_cons, List.map_nil, List.mem_singleton]
          rcases List.mem_map.mp hx with ⟨f, hf, hfx⟩
          intro hxe
          exact findAndBump_none_forall now nodeId fs hm f hf (by rw [← hfx] at hxe; exact hxe)
        · exact hnd
  · intro hlen
    unfold updateFriendsList
    cases hm : findAndBump now nodeId fs with
    | some r =>
        simp only []
        have : r.length = fs.length := by
          have := congrArg List.length (findAndBump_ids now nodeId fs r hm)
          simpa using this
        omega
    | none =>
        simp only []
        split_ifs with hlt
        · simp only [List.length_append, List.length_cons, List.length_nil]
          omega
        · exact hlen
  · intro hnd g hg hid
    unfold updateFriendsList
    rw [findAndBump_eq_map now nodeId fs hnd g hg hid]
    simp

/-- Claim C9 witness: a repeat encounter bumps in place without growing the
list, and a new id on a full list of 8 is dropped. -/
theorem claim_C9_witness :
    updateFriendsList 50 1 [{ nodeId := 1, encounters := 2, lastSeen := 3 },
                           { nodeId := 4, encounters := 1, lastSeen := 3 }] =
      [{ nodeId := 1, encounters := 3, lastSeen := 50 },
       { nodeId := 4, encounters := 1, lastSeen := 3 }] ∧
    updateFriendsList 50 9
        [{ nodeId := 1, encounters := 1, lastSeen := 0 },
         { nodeId := 2, encounters := 1, lastSeen := 0 },
         { nodeId := 3, encounters := 1, lastSeen := 0 },
         { nodeId := 4, encounters := 1, lastSeen := 0 },
         { nodeId := 5, encounters := 1, lastSeen := 0 },
         { nodeId := 6, encounters := 1, lastSeen := 0 },
         { nodeId := 7, encounters := 1, lastSeen := 0 },
         { nodeId := 8, encounters := 1, lastSeen := 0 }] =
        [{ nodeId := 1, encounters := 1, lastSeen := 0 },
         { nodeId := 2, encounters := 1, lastSeen := 0 },
         { nodeId := 3, encounters := 1, lastSeen := 0 },
         { nodeId := 4, encounters := 1, lastSeen := 0 },
         { nodeId := 5, encounters := 1, lastSeen := 0 },
         { nodeId := 6, encounters := 1, lastSeen := 0 },
         { nodeId := 7, encounters := 1, lastSeen := 0 },
         { nodeId := 8, encounters := 1, lastSeen := 0 }] := by
  constructor
  · have h := (claim_C9 50 1 [{ nodeId := 1, encounters := 2, lastSeen := 3 },
        { nodeId := 4, encounters := 1, lastSeen := 3 }]).2.2.1 (by decide)
      { nodeId := 1, encounters := 2, lastSeen := 3 } (by decide) (by decide)
    rw [h]; decide
  · exact (claim_C9 50 9 _).2.1 (by decide) (by decide)

/-- A persisted snapshot declaring 9 friends (above the capacity of 8), with
an empty friends blob. -/
def badPrefsC5 : LoRabotPrefs :=
  { stateByte := 0, lastActivity := 0, friendCountByte := 9, friendsBlob := [] }

/-- A persisted snapshot declaring 3 friends whose blob holds only 2 records
(byte length mismatch), over a capacity-respecting count. -/
def mismatchPrefsC5 : LoRabotPrefs :=
  { stateByte := 0, lastActivity := 0, friendCountByte := 3,
    friendsBlob := [{ nodeId := 1, encounters := 1, lastSeen := 0 },
                    { nodeId := 2, encounters := 1, lastSeen := 0 }] }

/-- Claim C5: loading a snapshot whose declared friend_count exceeds the
capacity of 8 skips the load block but leaves the declared count in place,
so friendCount ends at 9 with no loaded records and the claimed invariant
friend_count less-or-equal 8 does not hold after loadState; a byte-length
mismatch under a capacity-respecting count is, by contrast, discarded
wholesale as the claim states. -/
theorem claim_C5 :
    (loadState badPrefsC5 (constructedState 0 2000)).friendCount = 9 ∧
    (loadState badPrefsC5 (constructedState 0 2000)).friends = [] ∧
    ¬(loadState badPrefsC5 (constructedState 0 2000)).friendCount ≤ MAX_FRIENDS ∧
    (loadState mismatchPrefsC5 (constructedState 0 2000)).friendCount = 0 ∧
    (loadState mismatchPrefsC5 (constructedState 0 2000)).friends = [] := by
  refine ⟨by decide, by decide, by decide, by decide, by decide⟩

/-- Claim C7: whenever the sender-detection step actually samples the
outbound counter (750 ms rate gate passed, radio present, not already in or
entering the Sent state), the Sent state is triggered exactly when the
counter incremented and either the armed correlation hint is younger than
500 ms, or the counter incremented by exactly one with no armed hint; a
trigger puts the engine in the SENDER state at once. -/
theorem claim_C7 (now txGood : Nat) (s : EngineState)
    (hrate : now - s.lastTxGoodCheck > 750)
    (hidle1 : s.inSenderState = false) (hidle2 : s.isSendingMessage = false) :
    ((executeSenderDetection now true txGood s).inSenderState = true ↔
      (txGood > s.lastTxGoodCount ∧
        ((s.pendingSenderTrigger = true ∧ now - s.lastTextMessageTxTime < 500) ∨
         (s.pendingSenderTrigger = false ∧ txGood - s.lastTxGoodCount = 1))))
  ∧ ((executeSenderDetection now true txGood s).inSenderState = true →
      (executeSenderDetection now true txGood s).currentState = SENDER) := by
  unfold executeSenderDetection triggerSenderState
  rw [if_pos hrate]
  simp only [hidle1, hidle2]
  constructor
  · constructor
    · intro htrig
      by_contra hc
      simp only [not_and_or, not_or, not_lt, Nat.not_lt] at hc
      revert htrig
      split_ifs <;> simp_all <;> omega
    · intro hc
      rcases hc with ⟨hgt, hcase⟩
      rcases hcase with ⟨hpend, hwin⟩ | ⟨hpend, hone⟩ <;> split_ifs <;> simp_all
  · intro htrig
    revert htrig
    split_ifs <;> simp_all

/-- Engine state for the C7 witness: counter previously sampled at 5. -/
def sC7a : EngineState := { (constructedState 0 2000) with lastTxGoodCount := 5 }

/-- Engine state for the C7 witness: counter at 5 with an expired hint. -/
def sC7b : EngineState :=
  { (constructedState 0 2000) with
      lastTxGoodCount := 5,
      pendingSenderTrigger := true,
      lastTextMessageTxTime := 100 }

/-- Claim C7 witness: a single-increment observation with no armed hint
triggers the Sent state; the same observation with an expired hint armed
does not. -/
theorem claim_C7_witness :
    (executeSenderDetection 1000 true 6 sC7a).inSenderState = true ∧
    (executeSenderDetection 1000 true 6 sC7b).inSenderState = false := by
  constructor
  · exact (claim_C7 1000 6 sC7a (by decide) (by decide) (by decide)).1.mpr (by decide)
  · have h := (claim_C7 1000 6 sC7b (by decide) (by decide) (by decide)).1
    cases hb : (executeSenderDetection 1000 true 6 sC7b).inSenderState
    · rfl
    · exact absurd (h.mp hb) (by decide)

theorem isNightTime_eq_false (timeAvailable : Bool) (hour : Nat) :
    isNightTime timeAvailable hour = false := by
  unfold isNightTime
  split <;> rfl

theorem isLowBattery_eq_false (batteryPercent : Nat) :
    isLowBattery batteryPercent = false := rfl

/-- A qualifying direct text from node 7 to the local node 1. -/
def pktC4 : MeshPacket :=
  { fromNode := 7, toNode := 1, portnum := 1, hopStart := 3, hopLimit := 3 }

/-- Engine state already in the Sent state (entered at 9500 ms) when the
qualifying inbound event arrives at 10000 ms. -/
def sPreC4 : EngineState :=
  { (constructedState 0 2000) with
      inSenderState := true,
      senderStartTime := 9500,
      currentNodeCount := 1 }

/-- Claim C4 counterexample: a qualifying inbound event at T = 10000 ms
arrives while the Sent state is active; at 11000 ms, inside the claimed
window [T, T+3s), the state machine reports SENDER, not Received (EXCITED),
because the Sent check precedes the Received/Grateful cycle. -/
theorem claim_C4_counterexample :
    (handleReceived 10000 1 pktC4 sPreC4).inExcitedState = true ∧
    (handleReceived 10000 1 pktC4 sPreC4).excitedStartTime = 10000 ∧
    (calculateNewState 11000 2500 false 0 100
        (handleReceived 10000 1 pktC4 sPreC4)).1 = SENDER ∧
    SENDER ≠ EXCITED := by
  refine ⟨by decide, by decide, by decide, by decide⟩

theorem idleAnimation_inExcitedState (now : Nat) (s3 : EngineState) :
    (idleAnimation now s3).2.inExcitedState = s3.inExcitedState := by
  unfold idleAnimation
  simp only []
  split_ifs <;> simp

/-- Claim C4 (amended): for a qualifying trigger at time T, provided no
higher-priority Blink (first 80 ms) or Sent (first 2 s) state is concurrently
active, the engine reports Received (EXCITED) on [T, T+3s), Grateful on
[T+3s, T+6s), and from T+6s the cycle flag is cleared and the computation
coincides with the one of the same state with the cycle inactive, i.e. it
falls through to the next eligible state. -/
theorem claim_C4 (now rand : Nat) (timeAvailable : Bool) (hour batteryPercent : Nat)
    (s : EngineState) (T : Nat)
    (hex : s.inExcitedState = true) (hT : s.excitedStartTime = T)
    (hnb : ¬(s.inBlinkState = true ∧ now - s.blinkStartTime < 80))
    (hns : ¬(s.inSenderState = true ∧ (now - s.senderStartTime) / 1000 < 2)) :
    (now - T < 3000 →
      (calculateNewState now rand timeAvailable hour batteryPercent s).1 = EXCITED)
  ∧ (3000 ≤ now - T → now - T < 6000 →
      (calculateNewState now rand timeAvailable hour batteryPercent s).1 = GRATEFUL)
  ∧ (6000 ≤ now - T →
      ((calculateNewState now rand timeAvailable hour batteryPercent s).2.inExcitedState = false ∧
       calculateNewState now rand timeAvailable hour batteryPercent s =
         calculateNewState now rand timeAvailable hour batteryPercent
           { s with inExcitedState := false })) := by
  refine ⟨?_, ?_, ?_⟩
  · intro h3
    have hd3 : (now - s.excitedStartTime) / 1000 < 3 := by rw [hT]; omega
    unfold calculateNewState blinkCheck senderCheck excitedCheck
    by_cases hbl : s.inBlinkState = true <;> by_cases hsn : s.inSenderState = true
    · have hy : ¬now - s.blinkStartTime < 80 := fun h => hnb ⟨hbl, h⟩
      have hx : ¬(now - s.senderStartTime) / 1000 < 2 := fun h => hns ⟨hsn, h⟩
      simp [hbl, hsn, hy, hx, hex, hd3]
    · have hy : ¬now - s.blinkStartTime < 80 := fun h => hnb ⟨hbl, h⟩
      simp [hbl, hsn, hy, hex, hd3]
    · have hx : ¬(now - s.senderStartTime) / 1000 < 2 := fun h => hns ⟨hsn, h⟩
      simp [hbl, hsn, hx, hex, hd3]
    · simp [hbl, hsn, hex, hd3]
  · intro h3 h6
    have hd3 : ¬(now - s.excitedStartTime) / 1000 < 3 := by rw [hT]; omega
    have hd6 : (now - s.excitedStartTime) / 1000 < 6 := by rw [hT]; omega
    unfold calculateNewState blinkCheck senderCheck excitedCheck
    by_cases hbl : s.inBlinkState = true <;> by_cases hsn : s.inSenderState = true
    · have hy : ¬now - s.blinkStartTime < 80 := fun h => hnb ⟨hbl, h⟩
      have hx : ¬(now - s.senderStartTime) / 1000 < 2 := fun h => hns ⟨hsn, h⟩
      simp [hbl, hsn, hy, hx, hex, hd3, hd6]
    · have hy : ¬now - s.blinkStartTime < 80 := fun h => hnb ⟨hbl, h⟩
      simp [hbl, hsn, hy, hex, hd3, hd6]
    · have hx : ¬(now - s.senderStartTime) / 1000 < 2 := fun h => hns ⟨hsn, h⟩
      simp [hbl, hsn, hx, hex, hd3, hd6]
    · simp [hbl, hsn, hex, hd3, hd6]
  · intro h6
    have hd6 : ¬(now - s.excitedStartTime) / 1000 < 6 := by rw [hT]; omega
    have hd3 : ¬(now - s.excitedStartTime) / 1000 < 3 := by rw [hT]; omega
    constructor
    · unfold calculateNewState blinkCheck senderCheck excitedCheck
      by_cases hbl : s.inBlinkState = true <;> by_cases hsn : s.inSenderState = true
      · have hy : ¬now - s.blinkStartTime < 80 := fun h => hnb ⟨hbl, h⟩
        have hx : ¬(now - s.senderStartTime) / 1000 < 2 := fun h => hns ⟨hsn, h⟩
        simp [hbl, hsn, hy, hx, hex, hd3, hd6, isNightTime_eq_false,
          isLowBattery_eq_false, idleAnimation_inExcitedState]
      · have hy : ¬now - s.blinkStartTime < 80 := fun h => hnb ⟨hbl, h⟩
        simp [hbl, hsn, hy, hex, hd3, hd6, isNightTime_eq_false,
          isLowBattery_eq_false, idleAnimation_inExcitedState]
      · have hx : ¬(now - s.senderStartTime) / 1000 < 2 := fun h => hns ⟨hsn, h⟩
        simp [hbl, hsn, hx, hex, hd3, hd6, isNightTime_eq_false,
          isLowBattery_eq_false, idleAnimation_inExcitedState]
      · simp [hbl, hsn, hex, hd3, hd6, isNightTime_eq_false,
          isLowBattery_eq_false, idleAnimation_inExcitedState]
    · unfold calculateNewState blinkCheck senderCheck excitedCheck
      by_cases hbl : s.inBlinkState = true <;> by_cases hsn : s.inSenderState = true
      · have hy : ¬now - s.blinkStartTime < 80 := fun h => hnb ⟨hbl, h⟩
        have hx : ¬(now - s.senderStartTime) / 1000 < 2 := fun h => hns ⟨hsn, h⟩
        simp [hbl, hsn, hy, hx, hex, hd3, hd6, isNightTime_eq_false, isLowBattery_eq_false]
      · have hy : ¬now - s.blinkStartTime < 80 := fun h => hnb ⟨hbl, h⟩
        simp [hbl, hsn, hy, hex, hd3, hd6, isNightTime_eq_false, isLowBattery_eq_false]
      · have hx : ¬(now - s.senderStartTime) / 1000 < 2 := fun h => hns ⟨hsn, h⟩
        simp [hbl, hsn, hx, hex, hd3, hd6, isNightTime_eq_false, isLowBattery_eq_false]
      · simp [hbl, hsn, hex, hd3, hd6, isNightTime_eq_false, isLowBattery_eq_false]

/-- Engine state with the cycle armed at T = 10000 and nothing else active. -/
def sW4 : EngineState :=
  { (constructedState 0 2000) with inExcitedState := true, excitedStartTime := 10000 }

/-- Claim C4 witness: 1 s after the trigger the machine reports EXCITED, 4 s
after it reports GRATEFUL. -/
theorem claim_C4_witness :
    (calculateNewState 11000 2500 false 0 100 sW4).1 = EXCITED ∧
    (calculateNewState 14000 2500 false 0 100 sW4).1 = GRATEFUL := by
  constructor
  · exact (claim_C4 11000 2500 false 0 100 sW4 10000 (by decide) (by decide)
      (by decide) (by decide)).1 (by decide)
  · exact (claim_C4 14000 2500 false 0 100 sW4 10000 (by decide) (by decide)
      (by decide) (by decide)).2.1 (by decide) (by decide)

/-- Idle engine state 500 ms after its last recorded state change, with the
1 s look-cycle tick due and the next blink far away. -/
def sC6 : EngineState :=
  { (constructedState 0 2000) with
      currentNodeCount := 1,
      lastStateChange := 4000,
      nextBlinkTime := 999999,
      lastFaceAnimationTime := 3000 }

/-- Claim C6 counterexample: only 500 ms after the last state change the
scheduler pass moves the current state from AWAKE to a look state — the
look-around cycling inside the state computation mutates the current state
directly and is not subject to the 5 s throttle. -/
theorem claim_C6_counterexample :
    sC6.currentState = AWAKE ∧
    (4500 : Nat) - sC6.lastStateChange ≤ 5000 ∧
    (updatePetState 4500 2500 false 0 100 sC6).currentState = LOOKING_AROUND_RIGHT ∧
    (updatePetState 4500 2500 false 0 100 sC6).lastStateChange = sC6.lastStateChange ∧
    LOOKING_AROUND_RIGHT ≠ AWAKE := by
  refine ⟨by decide, by decide, by decide, by decide, by decide⟩

/-- Claim C6 (amended): the adoption step of updatePetState applies a
transition into or out of the set consisting of EXCITED (Received), HAPPY
(Discovered) and SENDER (Sent) — GRATEFUL is not in the immediate set —
immediately, and defers every other adoption until more than 5 s have
elapsed since the last recorded state change; however this throttle only
governs the adoption of the value computed by calculateNewState, while the
idle/look/sleepy cycling inside calculateNewState overwrites the current
state directly, exempt from the throttle. -/
theorem claim_C6 (now rand : Nat) (timeAvailable : Bool) (hour batteryPercent : Nat)
    (s : EngineState) :
    (((calculateNewState now rand timeAvailable hour batteryPercent s).1 ≠
        (calculateNewState now rand timeAvailable hour batteryPercent s).2.currentState) →
      ((calculateNewState now rand timeAvailable hour batteryPercent s).1 = EXCITED ∨
       (calculateNewState now rand timeAvailable hour batteryPercent s).2.currentState = EXCITED ∨
       (calculateNewState now rand timeAvailable hour batteryPercent s).1 = HAPPY ∨
       (calculateNewState now rand timeAvailable hour batteryPercent s).2.currentState = HAPPY ∨
       (calculateNewState now rand timeAvailable hour batteryPercent s).1 = SENDER ∨
       (calculateNewState now rand timeAvailable hour batteryPercent s).2.currentState = SENDER) →
      updatePetState now rand timeAvailable hour batteryPercent s =
        { (calculateNewState now rand timeAvailable hour batteryPercent s).2 with
            previousState :=
              (calculateNewState now rand timeAvailable hour batteryPercent s).2.currentState,
            currentState := (calculateNewState now rand timeAvailable hour batteryPercent s).1,
            lastStateChange := now,
            displayNeedsUpdate := true })
  ∧ (((calculateNewState now rand timeAvailable hour batteryPercent s).1 ≠
        (calculateNewState now rand timeAvailable hour batteryPercent s).2.currentState) →
      ¬((calculateNewState now rand timeAvailable hour batteryPercent s).1 = EXCITED ∨
        (calculateNewState now rand timeAvailable hour batteryPercent s).2.currentState = EXCITED ∨
        (calculateNewState now rand timeAvailable hour batteryPercent s).1 = HAPPY ∨
        (calculateNewState now rand timeAvailable hour batteryPercent s).2.currentState = HAPPY ∨
        (calculateNewState now rand timeAvailable hour batteryPercent s).1 = SENDER ∨
        (calculateNewState now rand timeAvailable hour batteryPercent s).2.currentState = SENDER) →
      now - (calculateNewState now rand timeAvailable hour batteryPercent s).2.lastStateChange
        ≤ 5000 →
      updatePetState now rand timeAvailable hour batteryPercent s =
        (calculateNewState now rand timeAvailable hour batteryPercent s).2)
  ∧ (((calculateNewState now rand timeAvailable hour batteryPercent s).1 =
        (calculateNewState now rand timeAvailable hour batteryPercent s).2.currentState) →
      updatePetState now rand timeAvailable hour batteryPercent s =
        (calculateNewState now rand timeAvailable hour batteryPercent s).2) := by
  unfold updatePetState
  simp only []
  refine ⟨?_, ?_, ?_⟩
  · intro hne himm
    split_ifs with h
    · rfl
    · exact absurd ⟨hne, by tauto⟩ h
  · intro hne himm htime
    split_ifs with h
    · rcases h with ⟨h1, h2⟩
      rcases h2 with h2 | h2 | h2 | h2 | h2 | h2 | h2
      · exact absurd h2 (by tauto)
      · exact absurd h2 (by tauto)
      · exact absurd h2 (by tauto)
      · exact absurd h2 (by tauto)
      · exact absurd h2 (by tauto)
      · exact absurd h2 (by tauto)
      · omega
    · rfl
  · intro heq
    split_ifs with h
    · exact absurd heq h.1
    · rfl

/-- Grateful-phase engine state: cycle armed at 0, current state AWAKE,
last state change at 0. -/
def sW6 : EngineState := { (constructedState 0 2000) with inExcitedState := true }

/-- Claim C6 witness: at 4000 ms the computed state is GRATEFUL but, the
current state being AWAKE and only 4 s having elapsed, the adoption is
deferred and the pass leaves the state record unchanged. -/
theorem claim_C6_witness :
    updatePetState 4000 2500 false 0 100 sW6 = sW6 ∧
    (calculateNewState 4000 2500 false 0 100 sW6).1 = GRATEFUL := by
  constructor
  · have h := (claim_C6 4000 2500 false 0 100 sW6).2.1 (by decide) (by decide) (by decide)
    rw [h]
    decide
  · decide

theorem senderCheck_fst (now : Nat) (s : EngineState) :
    (senderCheck now s).1 = none ∨ (senderCheck now s).1 = some SENDER := by
  unfold senderCheck
  split_ifs <;> simp

theorem excitedCheck_fst (now : Nat) (s : EngineState) :
    (excitedCheck now s).1 = none ∨ (excitedCheck now s).1 = some EXCITED ∨
    (excitedCheck now s).1 = some GRATEFUL := by
  unfold excitedCheck
  split_ifs <;> simp

theorem senderCheck_preserves (now : Nat) (s : EngineState) :
    (senderCheck now s).2.nextBlinkTime = s.nextBlinkTime ∧
    (senderCheck now s).2.inBlinkState = s.inBlinkState := by
  unfold senderCheck
  split_ifs <;> simp

theorem excitedCheck_preserves (now : Nat) (s : EngineState) :
    (excitedCheck now s).2.nextBlinkTime = s.nextBlinkTime ∧
    (excitedCheck now s).2.inBlinkState = s.inBlinkState := by
  unfold excitedCheck
  split_ifs <;> simp

theorem idleAnimation_no_blink (now : Nat) (s3 : EngineState)
    (h : now < s3.nextBlinkTime) :
    (idleAnimation now s3).1 ≠ BLINK ∧
    (idleAnimation now s3).2.inBlinkState = s3.inBlinkState ∧
    (idleAnimation now s3).2.nextBlinkTime = s3.nextBlinkTime := by
  unfold idleAnimation shouldTriggerBlink
  simp only []
  split_ifs <;> simp_all <;> omega

/-- Claim C8: an active blink reports BLINK, without any mutation, for less
than its fixed 80 ms duration; from 80 ms on the blink is over — the pass
never reports BLINK again, the blink flag is cleared and the next blink is
rescheduled exactly `rand` ms ahead where `rand` models random(2000, 5000),
so the next trigger lies in the 2–5 s window after completion; and when no
higher-priority state and no animation tick is due, the pass resumes the
AWAKE idle face with the look-cycle position untouched. -/
theorem claim_C8 (now rand : Nat) (timeAvailable : Bool) (hour batteryPercent : Nat)
    (s : EngineState) (hb : s.inBlinkState = true)
    (hr1 : 2000 ≤ rand) (hr2 : rand < 5000) :
    (now - s.blinkStartTime < 80 →
      calculateNewState now rand timeAvailable hour batteryPercent s = (BLINK, s))
  ∧ (80 ≤ now - s.blinkStartTime →
      ((calculateNewState now rand timeAvailable hour batteryPercent s).1 ≠ BLINK ∧
       (calculateNewState now rand timeAvailable hour batteryPercent s).2.inBlinkState = false ∧
       (calculateNewState now rand timeAvailable hour batteryPercent s).2.nextBlinkTime
         = now + rand ∧
       now + 2000 ≤
         (calculateNewState now rand timeAvailable hour batteryPercent s).2.nextBlinkTime ∧
       (calculateNewState now rand timeAvailable hour batteryPercent s).2.nextBlinkTime
         < now + 5000))
  ∧ (80 ≤ now - s.blinkStartTime → s.inSenderState = false → s.inExcitedState = false →
      ¬(s.showingNewNode = true ∧ now - s.nodeDiscoveryTime < 8000) →
      s.currentNodeCount > 0 → now - s.lastFaceAnimationTime < 1000 →
      ((calculateNewState now rand timeAvailable hour batteryPercent s).1 = AWAKE ∧
       (calculateNewState now rand timeAvailable hour batteryPercent s).2.lookingCycle
         = s.lookingCycle)) := by
  refine ⟨?_, ?_, ?_⟩
  · intro h80
    unfold calculateNewState blinkCheck
    simp [hb, h80]
  · intro h80
    have hnb80 : ¬now - s.blinkStartTime < 80 := by omega
    have hbe : blinkCheck now rand s =
        (none, { s with inBlinkState := false, nextBlinkTime := now + rand }) := by
      unfold blinkCheck
      simp [hb, hnb80]
    unfold calculateNewState
    rw [hbe]
    simp only []
    rcases hs1 : senderCheck now { s with inBlinkState := false, nextBlinkTime := now + rand }
      with ⟨os, s2⟩
    have hps := senderCheck_preserves now
      { s with inBlinkState := false, nextBlinkTime := now + rand }
    rw [hs1] at hps
    simp only [] at hps
    have hfs := senderCheck_fst now
      { s with inBlinkState := false, nextBlinkTime := now + rand }
    rw [hs1] at hfs
    simp only [] at hfs
    cases os with
    | some st =>
        rcases hfs with hno | hsome
        · exact absurd hno (by simp)
        · have hst : st = SENDER := by simpa using hsome
          subst hst
          refine ⟨by simp, by simp [hps.2], by simp [hps.1], ?_, ?_⟩
          · simp [hps.1]; omega
          · simp [hps.1]; omega
    | none =>
        simp only []
        rcases he1 : excitedCheck now s2 with ⟨oe, s3⟩
        have hpe := excitedCheck_preserves now s2
        rw [he1] at hpe
        simp only [] at hpe
        have hfe := excitedCheck_fst now s2
        rw [he1] at hfe
        simp only [] at hfe
        cases oe with
        | some st =>
            have hst : st = EXCITED ∨ st = GRATEFUL := by
              rcases hfe with hno | h1 | h2
              · exact absurd hno (by simp)
              · exact Or.inl (by simpa using h1)
              · exact Or.inr (by simpa using h2)
            have h3n : s3.nextBlinkTime = now + rand := by rw [hpe.1, hps.1]
            have h3b : s3.inBlinkState = false := by rw [hpe.2, hps.2]
            refine ⟨?_, by simp [h3b], by simp [h3n], ?_, ?_⟩
            · rcases hst with h | h <;> subst h <;> simp
            · simp [h3n]; omega
            · simp [h3n]; omega
        | none =>
            have h3n : s3.nextBlinkTime = now + rand := by rw [hpe.1, hps.1]
            have h3b : s3.inBlinkState = false := by rw [hpe.2, hps.2]
            have hni := idleAnimation_no_blink now s3 (by rw [h3n]; omega)
            simp only [isNightTime_eq_false, isLowBattery_eq_false, Bool.false_eq_true,
              or_self, if_false]
            refine ⟨hni.1, ?_, ?_, ?_, ?_⟩
            · rw [hni.2.1, h3b]
            · rw [hni.2.2, h3n]
            · rw [hni.2.2, h3n]; omega
            · rw [hni.2.2, h3n]; omega
  · intro h80 hsn hex hshow hn htick
    have hnb80 : ¬now - s.blinkStartTime < 80 := by omega
    have htr : ¬now ≥ now + rand := by omega
    have htick2 : ¬now - s.lastFaceAnimationTime ≥ 1000 := by omega
    unfold calculateNewState blinkCheck senderCheck excitedCheck idleAnimation
      shouldTriggerBlink
    simp [hb, hnb80, hsn, hex, hshow, hn, htr, htick2,
      isNightTime_eq_false, isLowBattery_eq_false]
    split_ifs <;> simp

/-- Blinking engine state: blink began at 1000 ms out of the AWAKE idle
face, one node known, look-cycle tick not due. -/
def sW8 : EngineState :=
  { (constructedState 0 2000) with
      inBlinkState := true,
      blinkStartTime := 1000,
      currentState := BLINK,
      currentNodeCount := 1,
      lastFaceAnimationTime := 1050 }

/-- Claim C8 witness: at 1050 ms (50 ms in) the pass reports BLINK without
mutation; at 1100 ms the blink is over, the pass resumes AWAKE with the
look-cycle position untouched and reschedules the next blink 2500 ms ahead. -/
theorem claim_C8_witness :
    calculateNewState 1050 2500 false 0 100 sW8 = (BLINK, sW8) ∧
    (calculateNewState 1100 2500 false 0 100 sW8).1 = AWAKE ∧
    (calculateNewState 1100 2500 false 0 100 sW8).2.nextBlinkTime = 3600 ∧
    (calculateNewState 1100 2500 false 0 100 sW8).2.lookingCycle = sW8.lookingCycle := by
  have h1 := (claim_C8 1050 2500 false 0 100 sW8 (by decide) (by decide) (by decide)).1
    (by decide)
  have h2 := (claim_C8 1100 2500 false 0 100 sW8 (by decide) (by decide) (by decide)).2.1
    (by decide)
  have h3 := (claim_C8 1100 2500 false 0 100 sW8 (by decide) (by decide) (by decide)).2.2
    (by decide) (by decide) (by decide) (by decide) (by decide) (by decide)
  exact ⟨h1, h3.1, h2.2.2.1.trans (by norm_num), h3.2⟩

/-- The sleep-freedom invariant: the current state is neither sleepy face
(and stays a byte value, so persistence round-trips preserve it), and the
sleepy-cycling handler has not been entered (its first action would set
inSleepyState). -/
def SleepFree (s : EngineState) : Prop :=
  s.currentState ≠ SLEEPY1 ∧ s.currentState ≠ SLEEPY2 ∧ s.currentState < 256 ∧
  s.inSleepyState = false

theorem blinkCheck_cases (now rand : Nat) (s : EngineState) :
    blinkCheck now rand s = (some BLINK, s) ∨
    ((blinkCheck now rand s).1 = none ∧
     (blinkCheck now rand s).2.currentState = s.currentState ∧
     (blinkCheck now rand s).2.inSleepyState = s.inSleepyState) := by
  unfold blinkCheck
  split_ifs <;> simp

theorem senderCheck_cases (now : Nat) (s : EngineState) :
    senderCheck now s = (some SENDER, s) ∨
    ((senderCheck now s).1 = none ∧
     (senderCheck now s).2.currentState = s.currentState ∧
     (senderCheck now s).2.inSleepyState = s.inSleepyState) := by
  unfold senderCheck
  split_ifs <;> simp

theorem excitedCheck_cases (now : Nat) (s : EngineState) :
    excitedCheck now s = (some EXCITED, s) ∨ excitedCheck now s = (some GRATEFUL, s) ∨
    ((excitedCheck now s).1 = none ∧
     (excitedCheck now s).2.currentState = s.currentState ∧
     (excitedCheck now s).2.inSleepyState = s.inSleepyState) := by
  unfold excitedCheck
  split_ifs <;> simp

theorem idleAnimation_sleepFree (now : Nat) (s3 : EngineState) :
    ((idleAnimation now s3).1 ≠ SLEEPY1 ∧ (idleAnimation now s3).1 ≠ SLEEPY2 ∧
     (idleAnimation now s3).1 < 256) ∧ SleepFree (idleAnimation now s3).2 := by
  unfold idleAnimation SleepFree
  simp only []
  split_ifs <;> simp [AWAKE, LOOKING_AROUND_RIGHT, LOOKING_AROUND_LEFT, HAPPY, EXCITED, SLEEPY1, SLEEPY2, GRATEFUL, BLINK, DEMOTIVATED, SENDER]

theorem calculateNewState_sleepFree (now rand : Nat) (timeAvailable : Bool)
    (hour batteryPercent : Nat) (s : EngineState) (h : SleepFree s) :
    ((calculateNewState now rand timeAvailable hour batteryPercent s).1 ≠ SLEEPY1 ∧
     (calculateNewState now rand timeAvailable hour batteryPercent s).1 ≠ SLEEPY2 ∧
     (calculateNewState now rand timeAvailable hour batteryPercent s).1 < 256) ∧
    SleepFree (calculateNewState now rand timeAvailable hour batteryPercent s).2 := by
  unfold calculateNewState
  rcases blinkCheck_cases now rand s with hb | ⟨hb1, hb2, hb3⟩
  · rw [hb]
    exact ⟨⟨(by decide : (8:Nat) ≠ 5), (by decide : (8:Nat) ≠ 6),
      (by decide : (8:Nat) < 256)⟩, h⟩
  · rcases hbb : blinkCheck now rand s with ⟨ob, s1⟩
    rw [hbb] at hb1 hb2 hb3
    simp only [] at hb1 hb2 hb3
    subst hb1
    simp only []
    have h1 : SleepFree s1 := ⟨hb2 ▸ h.1, hb2 ▸ h.2.1, hb2 ▸ h.2.2.1, hb3 ▸ h.2.2.2⟩
    rcases senderCheck_cases now s1 with hs | ⟨hs1, hs2, hs3⟩
    · rw [hs]
      exact ⟨⟨(by decide : (10:Nat) ≠ 5), (by decide : (10:Nat) ≠ 6),
        (by decide : (10:Nat) < 256)⟩, h1⟩
    · rcases hss : senderCheck now s1 with ⟨os, s2⟩
      rw [hss] at hs1 hs2 hs3
      simp only [] at hs1 hs2 hs3
      subst hs1
      simp only []
      have h2 : SleepFree s2 := ⟨hs2 ▸ h1.1, hs2 ▸ h1.2.1, hs2 ▸ h1.2.2.1, hs3 ▸ h1.2.2.2⟩
      rcases excitedCheck_cases now s2 with he | he | ⟨he1, he2, he3⟩
      · rw [he]
        exact ⟨⟨(by decide : (4:Nat) ≠ 5), (by decide : (4:Nat) ≠ 6),
          (by decide : (4:Nat) < 256)⟩, h2⟩
      · rw [he]
        exact ⟨⟨(by decide : (7:Nat) ≠ 5), (by decide : (7:Nat) ≠ 6),
          (by decide : (7:Nat) < 256)⟩, h2⟩
      · rcases hee : excitedCheck now s2 with ⟨oe, s3⟩
        rw [hee] at he1 he2 he3
        simp only [] at he1 he2 he3
        subst he1
        simp only []
        rw [if_neg (by simp [isNightTime_eq_false, isLowBattery_eq_false])]
        exact idleAnimation_sleepFree now s3

theorem updatePetState_sleepFree (now rand : Nat) (timeAvailable : Bool)
    (hour batteryPercent : Nat) (s : EngineState) (h : SleepFree s) :
    SleepFree (updatePetState now rand timeAvailable hour batteryPercent s) := by
  have hc := calculateNewState_sleepFree now rand timeAvailable hour batteryPercent s h
  unfold updatePetState
  simp only []
  split_ifs with hcnd
  · exact ⟨hc.1.1, hc.1.2.1, hc.1.2.2, hc.2.2.2.2⟩
  · exact hc.2

theorem handleReceived_sleepFree (now myNodeNum : Nat) (mp : MeshPacket)
    (s : EngineState) (h : SleepFree s) :
    SleepFree (handleReceived now myNodeNum mp s) := by
  obtain ⟨h1, h2, h3, h4⟩ := h
  unfold handleReceived processNetworkEvent SleepFree
  simp only []
  split_ifs <;> simp_all [AWAKE, LOOKING_AROUND_RIGHT, LOOKING_AROUND_LEFT, HAPPY, EXCITED, SLEEPY1, SLEEPY2, GRATEFUL, BLINK, DEMOTIVATED, SENDER]

theorem executeNodeDiscoveryCheck_sleepFree (now myNodeNum : Nat)
    (nodes : List NodeInfoLite) (totalNodeCount : Nat) (s : EngineState)
    (h : SleepFree s) :
    SleepFree (executeNodeDiscoveryCheck now myNodeNum nodes totalNodeCount s) := by
  obtain ⟨h1, h2, h3, h4⟩ := h
  unfold executeNodeDiscoveryCheck processNetworkEvent SleepFree
  simp only []
  split_ifs <;> simp_all [AWAKE, LOOKING_AROUND_RIGHT, LOOKING_AROUND_LEFT, HAPPY, EXCITED, SLEEPY1, SLEEPY2, GRATEFUL, BLINK, DEMOTIVATED, SENDER]

theorem executeSenderDetection_sleepFree (now : Nat) (instancePresent : Bool)
    (txGood : Nat) (s : EngineState) (h : SleepFree s) :
    SleepFree (executeSenderDetection now instancePresent txGood s) := by
  obtain ⟨h1, h2, h3, h4⟩ := h
  unfold executeSenderDetection triggerSenderState SleepFree
  simp only []
  split_ifs <;> simp_all [AWAKE, LOOKING_AROUND_RIGHT, LOOKING_AROUND_LEFT, HAPPY, EXCITED, SLEEPY1, SLEEPY2, GRATEFUL, BLINK, DEMOTIVATED, SENDER]

theorem executeDisplayUpdate_sleepFree (now : Nat) (s : EngineState)
    (h : SleepFree s) : SleepFree (executeDisplayUpdate now s) := by
  obtain ⟨h1, h2, h3, h4⟩ := h
  unfold executeDisplayUpdate SleepFree
  simp only []
  split_ifs <;> simp_all [AWAKE, LOOKING_AROUND_RIGHT, LOOKING_AROUND_LEFT, HAPPY, EXCITED, SLEEPY1, SLEEPY2, GRATEFUL, BLINK, DEMOTIVATED, SENDER]

theorem testExcitedState_sleepFree (now : Nat) (s : EngineState)
    (h : SleepFree s) : SleepFree (testExcitedState now s) := by
  obtain ⟨h1, h2, h3, h4⟩ := h
  unfold testExcitedState SleepFree
  simp_all [AWAKE, LOOKING_AROUND_RIGHT, LOOKING_AROUND_LEFT, HAPPY, EXCITED, SLEEPY1, SLEEPY2, GRATEFUL, BLINK, DEMOTIVATED, SENDER]

theorem boot_sleepFree (now rand : Nat) :
    SleepFree (initialEngineState now rand (defaultPrefs now)) := by
  unfold initialEngineState loadState constructedState defaultPrefs SleepFree MAX_FRIENDS
  simp

theorem reload_sleepFree (now rand : Nat) (s : EngineState) (h : SleepFree s) :
    SleepFree (initialEngineState now rand (saveState s)) := by
  obtain ⟨h1, h2, h3, h4⟩ := h
  unfold initialEngineState loadState saveState constructedState SleepFree MAX_FRIENDS
  simp only [SLEEPY1, SLEEPY2] at h1 h2 ⊢
  have hmod : s.currentState % 256 = s.currentState := Nat.mod_eq_of_lt h3
  split_ifs <;> simp [hmod, h1, h2, h3]

/-- Claim C10: the night predicate is false for every clock reading, the
low-battery predicate is false for every battery level, and consequently no
reachable state of the engine ever has SLEEPY1 or SLEEPY2 as its current
state, and the sleepy-face cycling handler is never entered (inSleepyState,
which its first action would raise, stays false). -/
theorem claim_C10 :
    (∀ (timeAvailable : Bool) (hour : Nat), isNightTime timeAvailable hour = false)
  ∧ (∀ batteryPercent : Nat, isLowBattery batteryPercent = false)
  ∧ (∀ s : EngineState, Reachable s →
      s.currentState ≠ SLEEPY1 ∧ s.currentState ≠ SLEEPY2 ∧ s.inSleepyState = false) := by
  refine ⟨isNightTime_eq_false, isLowBattery_eq_false, ?_⟩
  have key : ∀ s : EngineState, Reachable s → SleepFree s := by
    intro s h
    induction h with
    | boot now rand => exact boot_sleepFree now rand
    | reload now rand h ih => exact reload_sleepFree now rand _ ih
    | stepUpdate now rand timeAvailable hour batteryPercent h ih =>
        exact updatePetState_sleepFree now rand timeAvailable hour batteryPercent _ ih
    | stepReceive now myNodeNum mp h ih =>
        exact handleReceived_sleepFree now myNodeNum mp _ ih
    | stepDiscovery now myNodeNum nodes totalNodeCount h ih =>
        exact executeNodeDiscoveryCheck_sleepFree now myNodeNum nodes totalNodeCount _ ih
    | stepSender now instancePresent txGood h ih =>
        exact executeSenderDetection_sleepFree now instancePresent txGood _ ih
    | stepDisplay now h ih => exact executeDisplayUpdate_sleepFree now _ ih
    | stepTest now h ih => exact testExcitedState_sleepFree now _ ih
  intro s h
  obtain ⟨h1, h2, _, h4⟩ := key s h
  exact ⟨h1, h2, h4⟩

/-- Claim C10 witness: the fresh-boot state is sleep-free. -/
theorem claim_C10_witness :
    (initialEngineState 0 2500 (defaultPrefs 0)).currentState ≠ SLEEPY1 ∧
    (initialEngineState 0 2500 (defaultPrefs 0)).currentState ≠ SLEEPY2 ∧
    (initialEngineState 0 2500 (defaultPrefs 0)).inSleepyState = false :=
  claim_C10.2.2 _ (Reachable.boot 0 2500)
